import Mathlib

/-!
Verification of the `pastry` pastebin server (`src/main.rs`).

The program is three HTTP handlers over a single SQLite table
`pastes(token TEXT PRIMARY KEY, content TEXT)`:

* `index`     : `GET /`              — serves a static landing page;
* `submit`    : `POST /submit`       — generates a 10-character alphanumeric
                token, inserts `(token, content)`, and redirects (303) to
                `/paste/{token}`; an insert failure panics the handler via
                `.expect("Failed to insert into database")`;
* `get_paste` : `GET /paste/{token}` — selects the content by token, mapping
                any query error to the sentinel `"Paste not found"`, and
                interpolates it verbatim into a fixed HTML template.

Shallow embedding choices:

* The database is a list of `(token, content)` rows.  SQLite's primary-key
  constraint makes a duplicate-token `INSERT` fail; `insertRow` models this
  by refusing to write when the token is already present.  A `dbFault` flag
  models an I/O failure of the insert, and a `queryFault` parameter models a
  non-`QueryReturnedNoRows` failure of the select, so that both error arms
  of the Rust code are reachable in the model.
* `thread_rng().sample_iter(&Alphanumeric)` is modelled as a stream
  `rng : Nat → Fin 62` of draws from rand's 62-character alphanumeric
  charset; the handler consumes the first ten draws.
-/

set_option autoImplicit false

namespace Pastry

/-- rand's `Alphanumeric` charset (`GEN_ASCII_STR_CHARSET`): uppercase,
lowercase, digits — 62 characters. -/
def GEN_ASCII_STR_CHARSET : List Char :=
  "ABCDEFGHIJKLMNOPQRSTUVWXYZabcdefghijklmnopqrstuvwxyz0123456789".toList

/-- One draw of rand's `Alphanumeric` distribution: an index into the
62-character charset. -/
def sampleAlphanumeric (r : Fin 62) : Char :=
  GEN_ASCII_STR_CHARSET.getD r.val 'A'

/-- `thread_rng().sample_iter(&Alphanumeric).take(10).map(char::from).collect()`
(main.rs lines 32–36): the first ten draws of the stream, as a string. -/
def genToken (rng : Nat → Fin 62) : String :=
  String.mk ((List.range 10).map (fun i => sampleAlphanumeric (rng i)))

/-- The `pastes` table: a list of `(token, content)` rows. -/
abbrev Store := List (String × String)

/-- `SELECT content FROM pastes WHERE token = ?`: content of the (unique)
row with the given token, if any. -/
def lookupToken (st : Store) (tok : String) : Option String :=
  match st with
  | [] => none
  | (t, c) :: rest => if t == tok then some c else lookupToken rest tok

/-- Whether a row with the given token exists (the primary-key check SQLite
performs on `INSERT`). -/
def hasToken (st : Store) (tok : String) : Bool :=
  match st with
  | [] => false
  | (t, _) :: rest => t == tok || hasToken rest tok

/-- `INSERT INTO pastes (token, content) VALUES (?, ?)` (main.rs lines
39–43).  Fails (`none`) on an I/O fault or on a primary-key violation
(duplicate token); otherwise appends exactly one row. -/
def insertRow (st : Store) (tok content : String) (dbFault : Bool) : Option Store :=
  if dbFault then none
  else if hasToken st tok then none
  else some (st ++ [(tok, content)])

/-- An HTTP response as the handlers build it. -/
structure Response where
  status : Nat
  contentType : Option String
  headers : List (String × String)
  body : String
deriving DecidableEq

/-- The form body of `POST /submit` (struct `FormData`, main.rs lines
98–101). -/
structure FormData where
  content : String
deriving DecidableEq

/-- Outcome of running a handler: either a response together with the
database state afterwards, or a panic (from `.expect`) with the message and
the database state, which a panic does not modify. -/
inductive Outcome where
  | response (resp : Response) (st : Store)
  | panicked (msg : String) (st : Store)
deriving DecidableEq

/-- The database state after an outcome. -/
def Outcome.store : Outcome → Store
  | .response _ st => st
  | .panicked _ st => st

/-- `async fn submit` (main.rs lines 31–48): generate a token, insert the
row — panicking with `"Failed to insert into database"` if the insert
fails — then answer `303 See Other` with a `Location` header pointing at
`/paste/{token}` and an empty body. -/
def submit (rng : Nat → Fin 62) (form : FormData) (st : Store) (dbFault : Bool) : Outcome :=
  let token := genToken rng
  match insertRow st token form.content dbFault with
  | none => .panicked "Failed to insert into database" st
  | some st' =>
      .response
        { status := 303
          contentType := none
          headers := [("Location", "/paste/" ++ token)]
          body := "" }
        st'

/-- Failure modes of `Connection::query_row`: no matching row, or any other
SQLite failure (modelled by an error code). -/
inductive QueryError where
  | queryReturnedNoRows
  | sqliteFailure (code : Nat)
deriving DecidableEq

/-- `conn.query_row("SELECT content FROM pastes WHERE token = ?", ...)`
(main.rs lines 57–62): the stored content, or an error — either an injected
fault or `QueryReturnedNoRows` when the token is absent. -/
def query_row (st : Store) (tok : String) (queryFault : Option Nat) : Except QueryError String :=
  match queryFault with
  | some code => .error (.sqliteFailure code)
  | none =>
      match lookupToken st tok with
      | some c => .ok c
      | none => .error .queryReturnedNoRows

/-- The HTML template of `get_paste` (main.rs lines 67–86) up to the point
where the content is interpolated. -/
def htmlPre : String :=
  "\n        <!DOCTYPE html>\n            <html lang=\"en\">\n            <head>\n                <meta charset=\"UTF-8\">\n                <meta name=\"viewport\" content=\"width=device-width, initial-scale=1.0\">\n                <title>Rustacious</title>\n                <link href=\"https://cdn.jsdelivr.net/npm/tailwindcss@2.2.15/dist/tailwind.min.css\" rel=\"stylesheet\">\n                <link href=\"https://fonts.googleapis.com/css2?family=Roboto:wght@300&display=swap\" rel=\"stylesheet\">\n            </head>\n            <body class=\"bg-gray-800 text-white\" style=\"display: flex; flex-direction: column; justify-content: flex-start; align-items: center; height: 100vh; margin: 0;\">\n            <img src=\"https://rustacean.net/more-crabby-things/dancing-ferris.gif\" alt=\"Rust mascot\" class=\"logo mb-4\" style=\"width: 16rem; height: 9rem;\">\n                <h2> Rusty Pastry</h2>\n                    <h1  class=\"text-3xl mb-6\">"

/-- The HTML template of `get_paste` after the interpolated content. -/
def htmlPost : String :=
  "</h1>\n            </body>\n            </html>\n        "

/-- `format!(r#"..."#, paste_content)`: the content is interpolated verbatim
between the two template halves — no HTML escaping. -/
def renderPasteHtml (paste_content : String) : String :=
  htmlPre ++ paste_content ++ htmlPost

/-- `async fn get_paste` (main.rs lines 54–95): run the select, replace any
error by the sentinel `"Paste not found"` (`unwrap_or_else`), and answer
`200` with `text/html` and the rendered page. -/
def get_paste (tok : String) (st : Store) (queryFault : Option Nat) : Response :=
  let paste_content :=
    match query_row st tok queryFault with
    | .ok c => c
    | .error _ => "Paste not found"
  { status := 200
    contentType := some "text/html"
    headers := []
    body := renderPasteHtml paste_content }

/-- Modelled from the spec: the contents of `index.html`, included by
`include_str!("index.html")` but not among the available sources.  The spec
says only that `GET /` "returns a static HTML page, unconditionally"; the
concrete bytes are irrelevant to every claim, so any fixed string is a
faithful model. -/
def indexHtml : String :=
  "<html><body>Rusty Pastry</body></html>"

/-- `async fn index` (main.rs lines 22–24): `HttpResponse::Ok()` with the
statically included landing page; the handler takes no state at all. -/
def index : Response :=
  { status := 200
    contentType := none
    headers := []
    body := indexHtml }

/-- A request to one of the three dynamic routes registered in `main`
(main.rs lines 130–132). -/
inductive Request where
  | getIndex
  | postSubmit (form : FormData)
  | getPaste (token : String)

/-- The route table of `main`: dispatch a request to its handler.  `rng`,
`dbFault` and `queryFault` parametrise the environment (randomness stream
and injected database faults); handlers that do not touch the database
leave the store unchanged. -/
def route (req : Request) (st : Store) (rng : Nat → Fin 62) (dbFault : Bool)
    (queryFault : Option Nat) : Outcome :=
  match req with
  | .getIndex => .response index st
  | .postSubmit form => submit rng form st dbFault
  | .getPaste tok => .response (get_paste tok st queryFault) st

/-- The primary-key invariant: at most one row per token value. -/
def tokensNodup (st : Store) : Prop :=
  (st.map Prod.fst).Nodup

/- ### Helper lemmas -/

/-- A token with a stored content is present in the table. -/
theorem hasToken_of_lookup {st : Store} {tok c : String}
    (h : lookupToken st tok = some c) : hasToken st tok = true := by
  induction st with
  | nil => simp [lookupToken] at h
  | cons p rest ih =>
    obtain ⟨t, c'⟩ := p
    simp only [lookupToken] at h
    simp only [hasToken, Bool.or_eq_true]
    by_cases ht : (t == tok) = true
    · exact Or.inl ht
    · simp only [ht, if_false] at h
      exact Or.inr (ih h)

/-- Looking up a token absent from `st` in `st` extended by a row for that
token finds the new row. -/
theorem lookup_append_self {st : Store} {tok c : String}
    (h : hasToken st tok = false) :
    lookupToken (st ++ [(tok, c)]) tok = some c := by
  induction st with
  | nil => simp [lookupToken]
  | cons p rest ih =>
    obtain ⟨t, c'⟩ := p
    simp only [hasToken, Bool.or_eq_false_iff] at h
    simpa [lookupToken, h.1] using ih h.2

/-- Appending rows does not disturb an existing row's lookup (the existing
row is found first). -/
theorem lookup_append_left {st st₂ : Store} {tok c : String}
    (h : lookupToken st tok = some c) :
    lookupToken (st ++ st₂) tok = some c := by
  induction st with
  | nil => simp [lookupToken] at h
  | cons p rest ih =>
    obtain ⟨t, c'⟩ := p
    simp only [lookupToken, List.cons_append] at h ⊢
    by_cases ht : (t == tok) = true
    · simpa [ht] using h
    · simp only [ht, if_false] at h ⊢
      exact ih h

/-- Anatomy of a successful `submit`: it happens exactly when no fault was
injected and the generated token is fresh, the response is the fixed 303
redirect to `/paste/{token}`, and the new store is the old one plus the one
new row. -/
theorem submit_response_anatomy {rng : Nat → Fin 62} {form : FormData} {st : Store}
    {dbFault : Bool} {r : Response} {st' : Store}
    (h : submit rng form st dbFault = .response r st') :
    dbFault = false ∧ hasToken st (genToken rng) = false ∧
    r = { status := 303
          contentType := none
          headers := [("Location", "/paste/" ++ genToken rng)]
          body := "" } ∧
    st' = st ++ [(genToken rng, form.content)] := by
  unfold submit insertRow at h
  cases dbFault with
  | true => simp at h
  | false =>
    cases htok : hasToken st (genToken rng) with
    | true => simp [htok] at h
    | false =>
      simp only [htok, Bool.false_eq_true, if_false, Outcome.response.injEq] at h
      exact ⟨rfl, rfl, h.1.symm, h.2.symm⟩

/-- Every draw of the alphanumeric distribution is an ASCII alphanumeric
character. -/
theorem sampleAlphanumeric_isAlphanum :
    ∀ r : Fin 62, (sampleAlphanumeric r).isAlphanum = true := by
  decide

/-- The store after `submit` is either unchanged (failed insert) or the old
store extended by the one new row. -/
theorem submit_store_append (rng : Nat → Fin 62) (form : FormData) (st : Store)
    (dbFault : Bool) :
    (submit rng form st dbFault).store = st ∨
    (submit rng form st dbFault).store = st ++ [(genToken rng, form.content)] := by
  simp only [submit, insertRow]
  cases dbFault with
  | false =>
    cases htok : hasToken st (genToken rng) with
    | false => exact Or.inr rfl
    | true => exact Or.inl rfl
  | true => exact Or.inl rfl

/-- A concrete randomness stream for the witnesses below: every draw is
index 0, so the generated token is `"AAAAAAAAAA"`. -/
def rngZero : Nat → Fin 62 := fun _ => 0

/-- The redirect response `submit` produces under `rngZero`. -/
def respZero : Response :=
  { status := 303
    contentType := none
    headers := [("Location", "/paste/AAAAAAAAAA")]
    body := "" }

/- ### The claims -/

/-- Claim C1: for every content string submitted via `POST /submit` (when
the insert succeeds), a `GET /paste/{token}` with the token taken from the
redirect's `Location` header yields a 200 `text/html` page whose body is
the fixed template with the content interpolated verbatim between the two
template halves — no HTML escaping is applied. -/
theorem submit_then_get_roundtrip_verbatim (rng : Nat → Fin 62)
    (form : FormData) (st : Store) (dbFault : Bool) (r : Response) (st' : Store)
    (h : submit rng form st dbFault = .response r st') :
    r.headers = [("Location", "/paste/" ++ genToken rng)] ∧
    get_paste (genToken rng) st' none =
      { status := 200
        contentType := some "text/html"
        headers := []
        body := htmlPre ++ form.content ++ htmlPost } := by
  obtain ⟨-, htok, hr, hst⟩ := submit_response_anatomy h
  constructor
  · rw [hr]
  · subst hst
    simp [get_paste, query_row, lookup_append_self htok, renderPasteHtml]

theorem submit_then_get_roundtrip_verbatim_witness :
    submit rngZero ⟨"hello world"⟩ [] false =
      .response respZero [("AAAAAAAAAA", "hello world")] ∧
    get_paste "AAAAAAAAAA" [("AAAAAAAAAA", "hello world")] none =
      { status := 200
        contentType := some "text/html"
        headers := []
        body := htmlPre ++ "hello world" ++ htmlPost } :=
  ⟨by decide,
   (submit_then_get_roundtrip_verbatim rngZero ⟨"hello world"⟩ [] false
      respZero [("AAAAAAAAAA", "hello world")] (by decide)).2⟩

/-- Claim C2: for every successful submission, the generated token — the
one embedded in the redirect's `Location` header — is a string of exactly
10 characters, each an alphanumeric character (0-9, A-Z, a-z). -/
theorem submit_token_ten_alphanumeric (rng : Nat → Fin 62) (form : FormData)
    (st : Store) (dbFault : Bool) (r : Response) (st' : Store)
    (h : submit rng form st dbFault = .response r st') :
    r.headers = [("Location", "/paste/" ++ genToken rng)] ∧
    (genToken rng).length = 10 ∧
    ∀ ch ∈ (genToken rng).data, ch.isAlphanum = true := by
  obtain ⟨-, -, hr, -⟩ := submit_response_anatomy h
  refine ⟨by rw [hr], rfl, ?_⟩
  intro ch hch
  have hm : ch ∈ (List.range 10).map (fun i => sampleAlphanumeric (rng i)) := hch
  obtain ⟨i, -, rfl⟩ := List.mem_map.mp hm
  exact sampleAlphanumeric_isAlphanum (rng i)

theorem submit_token_ten_alphanumeric_witness :
    submit rngZero ⟨"x"⟩ [] false = .response respZero [("AAAAAAAAAA", "x")] ∧
    (respZero.headers = [("Location", "/paste/" ++ genToken rngZero)] ∧
     (genToken rngZero).length = 10 ∧
     ∀ ch ∈ (genToken rngZero).data, ch.isAlphanum = true) :=
  ⟨by decide,
   submit_token_ten_alphanumeric rngZero ⟨"x"⟩ [] false respZero
     [("AAAAAAAAAA", "x")] (by decide)⟩

/-- Claim C3: for every token with no row in the table, `GET /paste/{token}`
does not fault: it returns a normal 200 HTML response whose body is the
template with the literal sentinel `"Paste not found"` in place of the
content. -/
theorem get_paste_missing_token_sentinel (st : Store) (tok : String)
    (h : lookupToken st tok = none) :
    get_paste tok st none =
      { status := 200
        contentType := some "text/html"
        headers := []
        body := htmlPre ++ "Paste not found" ++ htmlPost } := by
  simp [get_paste, query_row, h, renderPasteHtml]

theorem get_paste_missing_token_sentinel_witness :
    lookupToken [] "doesnotexist" = none ∧
    get_paste "doesnotexist" [] none =
      { status := 200
        contentType := some "text/html"
        headers := []
        body := htmlPre ++ "Paste not found" ++ htmlPost } :=
  ⟨rfl, get_paste_missing_token_sentinel [] "doesnotexist" rfl⟩

/-- Claim C4: every successful `POST /submit` answers a 303 redirect whose
`Location` header is `/paste/{token}` for the freshly generated token, with
an empty body, and its only effect on the store is appending exactly the
one row `(token, content)` — every pre-existing row is untouched. -/
theorem submit_redirect_and_single_insert (rng : Nat → Fin 62)
    (form : FormData) (st : Store) (dbFault : Bool) (r : Response) (st' : Store)
    (h : submit rng form st dbFault = .response r st') :
    r = { status := 303
          contentType := none
          headers := [("Location", "/paste/" ++ genToken rng)]
          body := "" } ∧
    st' = st ++ [(genToken rng, form.content)] := by
  obtain ⟨-, -, hr, hst⟩ := submit_response_anatomy h
  exact ⟨hr, hst⟩

theorem submit_redirect_and_single_insert_witness :
    submit rngZero ⟨"c"⟩ [("B", "b")] false =
      .response respZero [("B", "b"), ("AAAAAAAAAA", "c")] ∧
    (respZero = { status := 303
                  contentType := none
                  headers := [("Location", "/paste/" ++ genToken rngZero)]
                  body := "" } ∧
     [("B", "b"), ("AAAAAAAAAA", "c")] =
       [("B", "b")] ++ [(genToken rngZero, (FormData.mk "c").content)]) :=
  ⟨by decide,
   submit_redirect_and_single_insert rngZero ⟨"c"⟩ [("B", "b")] false respZero
     [("B", "b"), ("AAAAAAAAAA", "c")] (by decide)⟩

/-- Claim C5: inserting a row whose token already exists fails cleanly
rather than silently overwriting — the handler panics, the store is exactly
unchanged, so the previously stored content is still there and the table
still holds at most one row per token value. -/
theorem duplicate_insert_fails_cleanly (rng : Nat → Fin 62) (form : FormData)
    (st : Store) (dbFault : Bool) (c₀ : String)
    (h : lookupToken st (genToken rng) = some c₀) :
    submit rng form st dbFault = .panicked "Failed to insert into database" st ∧
    lookupToken (submit rng form st dbFault).store (genToken rng) = some c₀ ∧
    (tokensNodup st → tokensNodup (submit rng form st dbFault).store) := by
  have htok := hasToken_of_lookup h
  have hsub : submit rng form st dbFault =
      .panicked "Failed to insert into database" st := by
    simp only [submit, insertRow, htok]
    cases dbFault with
    | false => rfl
    | true => rfl
  refine ⟨hsub, ?_, ?_⟩
  · rw [hsub]; exact h
  · rw [hsub]; exact fun hn => hn

theorem duplicate_insert_fails_cleanly_witness :
    lookupToken [("AAAAAAAAAA", "old")] (genToken rngZero) = some "old" ∧
    (submit rngZero ⟨"new"⟩ [("AAAAAAAAAA", "old")] false =
       .panicked "Failed to insert into database" [("AAAAAAAAAA", "old")] ∧
     lookupToken (submit rngZero ⟨"new"⟩ [("AAAAAAAAAA", "old")] false).store
         (genToken rngZero) = some "old" ∧
     (tokensNodup [("AAAAAAAAAA", "old")] →
        tokensNodup (submit rngZero ⟨"new"⟩ [("AAAAAAAAAA", "old")] false).store)) :=
  ⟨by decide,
   duplicate_insert_fails_cleanly rngZero ⟨"new"⟩ [("AAAAAAAAAA", "old")] false
     "old" (by decide)⟩

/-- Claim C6: if the insert performed by `POST /submit` fails — token
collision or injected I/O fault — the handler panics with
`"Failed to insert into database"` and produces no response at all, rather
than returning a structured error to the client. -/
theorem insert_failure_panics (rng : Nat → Fin 62) (form : FormData)
    (st : Store) (dbFault : Bool)
    (h : insertRow st (genToken rng) form.content dbFault = none) :
    submit rng form st dbFault = .panicked "Failed to insert into database" st := by
  simp [submit, h]

theorem insert_failure_panics_witness :
    insertRow [] (genToken rngZero) (FormData.mk "x").content true = none ∧
    submit rngZero ⟨"x"⟩ [] true = .panicked "Failed to insert into database" [] :=
  ⟨rfl, insert_failure_panics rngZero ⟨"x"⟩ [] true rfl⟩

/-- Claim C7: `GET /` always answers 200 with the static landing page,
whatever the database state and environment — the `index` handler reads no
state at all. -/
theorem index_always_200_stateless (st : Store) (rng : Nat → Fin 62)
    (dbFault : Bool) (queryFault : Option Nat) :
    route .getIndex st rng dbFault queryFault = .response index st ∧
    index.status = 200 ∧ index.body = indexHtml :=
  ⟨rfl, rfl, rfl⟩

/-- Claim C8: pastes are immutable — no route ever updates or deletes an
existing row, so a row once present keeps answering lookups with the same
content after any request. -/
theorem pastes_immutable (req : Request) (st : Store) (rng : Nat → Fin 62)
    (dbFault : Bool) (queryFault : Option Nat) (tok c : String)
    (h : lookupToken st tok = some c) :
    lookupToken (route req st rng dbFault queryFault).store tok = some c := by
  cases req with
  | getIndex => exact h
  | postSubmit form =>
    show lookupToken (submit rng form st dbFault).store tok = some c
    rcases submit_store_append rng form st dbFault with hs | hs
    · rw [hs]; exact h
    · rw [hs]; exact lookup_append_left h
  | getPaste t => exact h

theorem pastes_immutable_witness :
    lookupToken [("B", "b")] "B" = some "b" ∧
    lookupToken
        (route (.postSubmit ⟨"new"⟩) [("B", "b")] rngZero false none).store
        "B" = some "b" :=
  ⟨rfl, pastes_immutable (.postSubmit ⟨"new"⟩) [("B", "b")] rngZero false none
          "B" "b" rfl⟩

/-- Claim C9: `get_paste` maps every failing lookup — a missing row or any
other database error — to the same sentinel page: a 200 response rendering
`"Paste not found"`, indistinguishable from retrieving a paste whose stored
content is literally `"Paste not found"`. -/
theorem failing_lookup_indistinguishable (st : Store) (tok : String)
    (queryFault : Option Nat) (e : QueryError)
    (h : query_row st tok queryFault = .error e) :
    get_paste tok st queryFault =
      { status := 200
        contentType := some "text/html"
        headers := []
        body := htmlPre ++ "Paste not found" ++ htmlPost } ∧
    get_paste tok st queryFault = get_paste tok [(tok, "Paste not found")] none := by
  have h1 : get_paste tok st queryFault =
      { status := 200
        contentType := some "text/html"
        headers := []
        body := htmlPre ++ "Paste not found" ++ htmlPost } := by
    simp [get_paste, h, renderPasteHtml]
  refine ⟨h1, ?_⟩
  rw [h1]
  simp [get_paste, query_row, lookupToken, renderPasteHtml]

theorem failing_lookup_indistinguishable_witness :
    query_row [("t", "secret")] "t" (some 1) = .error (.sqliteFailure 1) ∧
    (get_paste "t" [("t", "secret")] (some 1) =
       { status := 200
         contentType := some "text/html"
         headers := []
         body := htmlPre ++ "Paste not found" ++ htmlPost } ∧
     get_paste "t" [("t", "secret")] (some 1) =
       get_paste "t" [("t", "Paste not found")] none) :=
  ⟨rfl,
   failing_lookup_indistinguishable [("t", "secret")] "t" (some 1)
     (.sqliteFailure 1) rfl⟩

/-- Claim C10: the token depends only on the randomness stream — two
successful submissions under the same stream produce identical responses
(in particular the same `Location` token), whatever the submitted contents
and database states (noninterference of content and store on the token). -/
theorem token_noninterference (rng : Nat → Fin 62) (c₁ c₂ : String)
    (st₁ st₂ : Store) (d₁ d₂ : Bool) (r₁ r₂ : Response) (st₁' st₂' : Store)
    (h₁ : submit rng ⟨c₁⟩ st₁ d₁ = .response r₁ st₁')
    (h₂ : submit rng ⟨c₂⟩ st₂ d₂ = .response r₂ st₂') :
    r₁ = r₂ := by
  obtain ⟨-, -, hr₁, -⟩ := submit_response_anatomy h₁
  obtain ⟨-, -, hr₂, -⟩ := submit_response_anatomy h₂
  rw [hr₁, hr₂]

theorem token_noninterference_witness :
    submit rngZero ⟨"x"⟩ [] false = .response respZero [("AAAAAAAAAA", "x")] ∧
    submit rngZero ⟨"y"⟩ [("B", "b")] false =
      .response respZero [("B", "b"), ("AAAAAAAAAA", "y")] ∧
    respZero = respZero :=
  ⟨by decide, by decide,
   token_noninterference rngZero "x" "y" [] [("B", "b")] false false
     respZero respZero [("AAAAAAAAAA", "x")] [("B", "b"), ("AAAAAAAAAA", "y")]
     (by decide) (by decide)⟩

end Pastry
